import Mathlib

/-!
Verification of the two-stage CCTV safety-detection pipeline.

Shallow embedding of the core logic of the repository:
  * `edge_moondream_detector.py` — stage-1 edge sweep (frame classification,
    per-scenario voting, the retrying vision-query client);
  * `true_positive_detector.py` — stage-2 validation engine, confidence
    scoring and alert generation;
  * `scheduler.py` — the periodic sweep over cameras with pending records;
  * `cloud_storage.py` — the record-store classes the scheduler talks to.

Python strings are modelled as `List Char` (ASCII behaviour of `str.lower`
and `str.strip`), Python floats as `ℚ`, Python dicts as association lists
with first-insertion-order overwrite semantics, and the external inference
endpoint as an oracle function supplied to each operation.  Wall-clock
time side effects (sleeps, timestamps, logging) are not modelled.
-/

namespace SafetyVision

/-- Convert a Lean string literal into the character-list representation
used for Python strings throughout this development. -/
def str (s : String) : List Char := s.toList

/-- ASCII lower-casing of one character, as Python `str.lower` acts on the
ASCII text this pipeline manipulates (written as an explicit table over
the 26 uppercase letters). -/
def lowerChar (c : Char) : Char :=
  if c = 'A' then 'a' else if c = 'B' then 'b' else if c = 'C' then 'c' else
  if c = 'D' then 'd' else if c = 'E' then 'e' else if c = 'F' then 'f' else
  if c = 'G' then 'g' else if c = 'H' then 'h' else if c = 'I' then 'i' else
  if c = 'J' then 'j' else if c = 'K' then 'k' else if c = 'L' then 'l' else
  if c = 'M' then 'm' else if c = 'N' then 'n' else if c = 'O' then 'o' else
  if c = 'P' then 'p' else if c = 'Q' then 'q' else if c = 'R' then 'r' else
  if c = 'S' then 's' else if c = 'T' then 't' else if c = 'U' then 'u' else
  if c = 'V' then 'v' else if c = 'W' then 'w' else if c = 'X' then 'x' else
  if c = 'Y' then 'y' else if c = 'Z' then 'z' else c

/-- Python `str.lower` (ASCII fragment). -/
def lowerStr (s : List Char) : List Char := s.map lowerChar

/-- The whitespace characters removed by Python `str.strip` (ASCII set). -/
def isSpaceChar (c : Char) : Bool :=
  c = ' ' || c = '\t' || c = '\n' || c = '\r' || c = '\x0b' || c = '\x0c'

/-- Python `str.strip`: drop whitespace from both ends. -/
def strip (s : List Char) : List Char :=
  ((s.dropWhile isSpaceChar).reverse.dropWhile isSpaceChar).reverse

/-- Python's substring test `needle in hay` on strings. -/
def isSubstr (needle : List Char) : List Char → Bool
  | [] => decide (needle = [])
  | c :: t => needle.isPrefixOf (c :: t) || isSubstr needle t

/-- Python dict read `m[k]` / `m.get(k)` for a dict modelled as an
association list in insertion order. -/
def dictGet {α : Type} (k : List Char) : List (List Char × α) → Option α
  | [] => none
  | p :: rest => if k = p.1 then some p.2 else dictGet k rest

/-- Python dict write `m[k] = v`: overwrite in place if the key exists
(keeping first-insertion order), otherwise append. -/
def dictInsert {α : Type} (m : List (List Char × α)) (k : List Char) (v : α) :
    List (List Char × α) :=
  if (dictGet k m).isSome then m.map (fun p => if p.1 = k then (k, v) else p)
  else m ++ [(k, v)]

/-- Positive indicator substrings of stage-1 classification
(`EdgeMoondreamDetector._parse_detection`). -/
def positive_indicators : List (List Char) :=
  [str "yes", str "detected", str "visible", str "present", str "found",
   str "smoke", str "fire", str "fallen", str "debris", str "missing",
   str "unattended", str "i see", str "there is"]

/-- Negative indicator substrings of stage-1 classification
(`EdgeMoondreamDetector._parse_detection`). -/
def negative_indicators : List (List Char) :=
  [str "no", str "not detected", str "not visible", str "not present",
   str "not found", str "absent", str "clear", str "nothing",
   str "no smoke", str "no fire"]

/-- `sum(1 for indicator in indicators if indicator in text)`. -/
def countIndicators (indicators : List (List Char)) (text : List Char) : Nat :=
  (indicators.filter (fun ind => isSubstr ind text)).length

/-- `EdgeMoondreamDetector._parse_detection` (edge_moondream_detector.py
lines 231-258): lower-case and strip the response, count indicator
substring matches, verdict is `positive_count > negative_count`. -/
def parse_detection (response : List Char) : Bool :=
  let response_lower := strip (lowerStr response)
  decide (countIndicators negative_indicators response_lower <
          countIndicators positive_indicators response_lower)

/-- Positive indicators of stage-2 classification
(`TruePositiveDetector._parse_validation_response`). -/
def validation_positive_indicators : List (List Char) :=
  [str "yes", str "true", str "valid", str "detected", str "present", str "found"]

/-- Negative indicators of stage-2 classification
(`TruePositiveDetector._parse_validation_response`). -/
def validation_negative_indicators : List (List Char) :=
  [str "no", str "false", str "invalid", str "not detected", str "absent",
   str "not found"]

/-- `TruePositiveDetector._parse_validation_response` (true_positive_detector.py
lines 94-119): like stage 1 but with the stage-2 indicator sets, and an
explicit tie branch that defaults to valid. -/
def parse_validation_response (response : List Char) : Bool :=
  let response_lower := strip (lowerStr response)
  let positive_count := countIndicators validation_positive_indicators response_lower
  let negative_count := countIndicators validation_negative_indicators response_lower
  if negative_count < positive_count then true
  else if positive_count < negative_count then false
  else true

/-- The four answers treated as maximally clear by the confidence scorer. -/
def exact_answers : List (List Char) :=
  [str "yes", str "no", str "true", str "false"]

/-- `TruePositiveDetector._calculate_confidence` (true_positive_detector.py
lines 121-136).  Python floats 0.8, 0.5, 0.9, 0.6 are modelled as the exact
rationals they denote. -/
def calculate_confidence (edge_response validation_response : List Char) : ℚ :=
  let edge_confidence : ℚ := if 10 < (strip edge_response).length then 8/10 else 5/10
  let validation_confidence : ℚ :=
    if strip validation_response ∈ exact_answers then 9/10 else 6/10
  (edge_confidence + validation_confidence) / 2

/-- What the external inference endpoint does on one HTTP attempt:
a 2xx response carrying an answer, an HTTP 429, or a transport failure
(`requests.exceptions.RequestException`, which `raise_for_status` also
raises for any other non-2xx status). -/
inductive AttemptOutcome where
  | success (answer : List Char)
  | status429
  | requestError (message : List Char)
deriving DecidableEq

/-- Result dict of `call_moondream_api`: either a JSON body with an answer,
or a dict holding an `error` entry. -/
inductive ApiResult where
  | answer (text : List Char)
  | apiError (message : List Char)
deriving DecidableEq

/-- `max_retries = 3` in `call_moondream_api`. -/
def max_retries : Nat := 3

/-- The error message returned on HTTP 429 (edge_moondream_detector.py
line 157; inference.py line 95 appends a parenthetical hint). -/
def rate_limit_message : List Char := str "Rate limit hit"

/-- The body of the `for attempt in range(max_retries)` loop of
`call_moondream_api` (edge_moondream_detector.py lines 139-166 and
src/moondream/inference.py lines 77-104, which are identical in logic).
The attempt environment `env` gives the endpoint's behaviour on each
attempt index.  Backoff sleeps are real-time effects and are not modelled.
Returns the result together with the number of attempts consumed. -/
def call_loop (env : Nat → AttemptOutcome) : List Nat → ApiResult × Nat
  | [] => (.apiError [], 0)
  | attempt :: rest =>
    match env attempt with
    | .status429 => (.apiError rate_limit_message, attempt + 1)
    | .success a => (.answer a, attempt + 1)
    | .requestError e =>
      if attempt < max_retries - 1 then call_loop env rest
      else (.apiError e, attempt + 1)

/-- `call_moondream_api` with retry policy: iterate the loop body over
`range(max_retries)`. -/
def call_moondream_api (env : Nat → AttemptOutcome) : ApiResult × Nat :=
  call_loop env (List.range max_retries)

/-- Result of `MoondreamInference.run_inference`: the stripped answer text,
or an error dict.  (Processing-time metadata is wall-clock and not
modelled; the encoding of the supplied PIL image deterministically
succeeds for the 1-by-1 placeholder used in text-only validation.) -/
inductive InferenceResult where
  | ok (response : List Char)
  | infError (message : List Char)
deriving DecidableEq

/-- `MoondreamInference.run_inference` (src/moondream/inference.py lines
106-152) on a non-empty image list whose first image encodes successfully:
call the API and strip the answer.  `run_fast_inference` has the same
result shape. -/
def run_inference (env : Nat → AttemptOutcome) : InferenceResult :=
  match call_moondream_api env with
  | (.answer a, _) => .ok (strip a)
  | (.apiError e, _) => .infError e

/-- What happens when the edge detector processes one frame: the JPEG
encoding can fail (`encode_image` returns None), otherwise the frame's
API call produces an `ApiResult` (see `call_moondream_api`). -/
inductive FrameOutcome where
  | encodeFail
  | api (result : ApiResult)

/-- One entry of the `frame_results` list built by
`analyze_frames_for_scenario`: a failed frame (with its error message) or
an analyzed frame with its stripped response and per-frame verdict. -/
inductive FrameResult where
  | failed (frame_number : Nat) (error : List Char)
  | analyzed (frame_number : Nat) (response : List Char) (detected : Bool)
deriving DecidableEq

/-- The response of a successful frame entry (`r["response"] if r["success"]`). -/
def frameSuccessResponse : FrameResult → Option (List Char)
  | .analyzed _ r _ => some r
  | .failed _ _ => none

/-- The response of a successful frame entry that was classified positive. -/
def frameDetectedResponse : FrameResult → Option (List Char)
  | .analyzed _ r true => some r
  | _ => none

/-- Error string recorded when a frame fails to encode. -/
def encode_fail_message : List Char := str "Failed to encode frame"

/-- The `for i, frame in enumerate(frames)` loop of
`analyze_frames_for_scenario` (edge_moondream_detector.py lines 185-216):
builds the frame-results list and the running `detected_count`.  The
second argument is the 0-based index of the first frame of the slice. -/
def analyze_loop : List FrameOutcome → Nat → List FrameResult × Nat
  | [], _ => ([], 0)
  | o :: rest, i =>
    let tailResult := analyze_loop rest (i + 1)
    match o with
    | .encodeFail => (.failed (i + 1) encode_fail_message :: tailResult.1, tailResult.2)
    | .api (.apiError e) => (.failed (i + 1) e :: tailResult.1, tailResult.2)
    | .api (.answer a) =>
      let response := strip a
      let is_detected := parse_detection response
      (.analyzed (i + 1) response is_detected :: tailResult.1,
       tailResult.2 + if is_detected then 1 else 0)

/-- Decimal rendering of a number, for the narrative strings. -/
def natToChars (n : Nat) : List Char := (Nat.repr n).toList

/-- `scenario.replace('_', ' ')`. -/
def underscoreToSpace (s : List Char) : List Char :=
  s.map (fun c => if c = '_' then ' ' else c)

/-- `EdgeMoondreamDetector._generate_overall_response`
(edge_moondream_detector.py lines 260-285). -/
def generate_overall_response (frame_results : List FrameResult)
    (scenario : List Char) : List Char :=
  let successful_responses := frame_results.filterMap frameSuccessResponse
  match successful_responses with
  | [] => str "No analysis available for " ++ scenario
  | [only] => only
  | _ =>
    let detections := frame_results.filterMap frameDetectedResponse
    if detections = [] then
      str "Analysis of " ++ natToChars successful_responses.length ++
      str " frames indicates no " ++ underscoreToSpace scenario ++
      str " detection. Details: " ++ List.intercalate (str "; ") successful_responses
    else
      str "Analysis of " ++ natToChars successful_responses.length ++
      str " frames indicates " ++ underscoreToSpace scenario ++
      str " detection. Details: " ++ List.intercalate (str "; ") detections

/-- The per-scenario result dict of `analyze_frames_for_scenario`. -/
structure ScenarioResult where
  scenario : List Char
  detected : Bool
  response : List Char
  frame_results : List FrameResult
  detected_frames : Nat
  total_frames : Nat
deriving DecidableEq

/-- `EdgeMoondreamDetector.analyze_frames_for_scenario`
(edge_moondream_detector.py lines 168-229): run the loop over the frames'
outcomes, vote `detected = detected_count > 0`, and assemble the result. -/
def analyze_frames_for_scenario (frames : List FrameOutcome)
    (scenario : List Char) : ScenarioResult :=
  let looped := analyze_loop frames 0
  { scenario := scenario
    detected := decide (0 < looped.2)
    response := generate_overall_response looped.1 scenario
    frame_results := looped.1
    detected_frames := looped.2
    total_frames := frames.length }

/-- The fixed six-scenario list (`EdgeMoondreamDetector.__init__`,
edge_moondream_detector.py lines 36-43; the same six keys populate
`prompts/scenario_prompts.py` and config.py). -/
def scenarios : List (List Char) :=
  [str "smoke_detection", str "fire_detection", str "fall_detection",
   str "debris_detection", str "missing_fire_extinguisher",
   str "unattended_object"]

/-- The four-field per-scenario summary stored in a detection record's
`scenario_results` map (edge_moondream_detector.py lines 324-329). -/
structure ScenarioSummary where
  detected : Bool
  response : List Char
  detected_frames : Nat
  total_frames : Nat
deriving DecidableEq

/-- A detection record as produced by the edge sweep and stored in the
record store (the `edge_results` payload of `process_cctv_video`). -/
structure EdgeRecord where
  camera_id : List Char
  timestamp : List Char
  video_path : List Char
  edge_results : List (List Char × ScenarioSummary)
  detected_scenarios : List (List Char)
deriving DecidableEq

/-- Result of `process_cctv_video`: either the failure dict (no frames
extracted, or an exception) or a successful record. -/
inductive ProcessOutcome where
  | procFailure (error : List Char) (camera_id : List Char)
  | ok (record : EdgeRecord)

/-- Lines 324-329 of edge_moondream_detector.py: keep four fields of the
scenario analysis in the stored map. -/
def summarize (r : ScenarioResult) : ScenarioSummary :=
  { detected := r.detected, response := r.response,
    detected_frames := r.detected_frames, total_frames := r.total_frames }

/-- The `for scenario in self.scenarios` loop of `process_cctv_video`
(edge_moondream_detector.py lines 321-329): one four-field summary per
scenario, in the fixed order. -/
def edge_sweep_results (numFrames : Nat)
    (env : List Char → Nat → FrameOutcome) : List (List Char × ScenarioSummary) :=
  scenarios.map (fun s =>
    (s, summarize (analyze_frames_for_scenario ((List.range numFrames).map (env s)) s)))

/-- The successful payload of `process_cctv_video`
(edge_moondream_detector.py lines 334-347): the per-scenario map plus the
derived `detected_scenarios` list (keys with `detected = true`). -/
def edge_sweep_record (camera_id video_path now : List Char) (numFrames : Nat)
    (env : List Char → Nat → FrameOutcome) : EdgeRecord :=
  { camera_id := camera_id, timestamp := now, video_path := video_path,
    edge_results := edge_sweep_results numFrames env,
    detected_scenarios :=
      ((edge_sweep_results numFrames env).filter (fun p => p.2.detected)).map Prod.fst }

/-- `EdgeMoondreamDetector.process_cctv_video` (edge_moondream_detector.py
lines 287-361).  `numFrames` is the number of frames extracted from the
clip (the frames themselves are opaque here); `env scenario i` is the
outcome of analysing frame `i` for `scenario`.  Video decoding details are
external (§4.3): an unreadable clip raises and yields the failure dict,
which is subsumed by the `numFrames = 0` check for the claims below. -/
def process_cctv_video (camera_id video_path now : List Char) (numFrames : Nat)
    (env : List Char → Nat → FrameOutcome) : ProcessOutcome :=
  if numFrames = 0 then .procFailure (str "No frames extracted from video") camera_id
  else .ok (edge_sweep_record camera_id video_path now numFrames env)

/-- `get_scenario_prompt` / `get_text_validation_prompt`
(prompts/scenario_prompts.py) raise ValueError for a scenario outside the
prompt table, whose keys are exactly the six scenarios.  The prompt text
itself is an opaque external lookup (spec §1), so only definedness is
modelled. -/
def prompt_defined (scenario : List Char) : Bool := scenario ∈ scenarios

/-- Error recorded when the prompt lookup raises for an unknown scenario
(the ValueError message, caught by `validate_scenario`'s handler). -/
def unknown_scenario_error : List Char := str "Unknown scenario"

/-- Result dict of `TruePositiveDetector.validate_scenario`: either the
success dict (with parsed verdict and confidence) or the failure dict. -/
inductive ValidationResult where
  | ok (scenario edge_response validation_response : List Char)
      (is_valid : Bool) (confidence : ℚ)
  | vfail (scenario error : List Char)
deriving DecidableEq

/-- `result["success"]`. -/
def ValidationResult.isSuccess : ValidationResult → Bool
  | .ok .. => true
  | .vfail .. => false

/-- `result["success"] and result["is_valid"]` — the test at
true_positive_detector.py line 196 (Python's `and` short-circuits, so the
missing `is_valid` key of a failure dict is never read). -/
def ValidationResult.isTruePositive : ValidationResult → Bool
  | .ok _ _ _ is_valid _ => is_valid
  | .vfail .. => false

/-- `result["confidence"]` (only ever read from success dicts). -/
def ValidationResult.confidenceValue : ValidationResult → ℚ
  | .ok _ _ _ _ c => c
  | .vfail .. => 0

/-- `TruePositiveDetector.validate_scenario` (true_positive_detector.py
lines 34-92), on the text-only path (`image_data = None`): look up the
stage-2 prompt (ValueError for unknown scenarios is caught and becomes the
failure dict), run one inference, and on success parse
`response.strip().lower()` and attach the confidence.  `env scenario` is
the endpoint's per-attempt behaviour for this scenario's validation call. -/
def validate_scenario (env : List Char → Nat → AttemptOutcome)
    (scenario edge_response : List Char) : ValidationResult :=
  if prompt_defined scenario then
    match run_inference (env scenario) with
    | .infError e => .vfail scenario e
    | .ok resp =>
      let validation_response := lowerStr (strip resp)
      let is_valid := parse_validation_response validation_response
      .ok scenario edge_response validation_response is_valid
        (calculate_confidence edge_response validation_response)
  else .vfail scenario unknown_scenario_error

/-- The `for scenario in detected_scenarios` loop of
`detect_true_positives` (true_positive_detector.py lines 185-189): read
`edge_data["edge_results"][scenario]["response"]` (a missing key raises
KeyError, caught by the outer handler: modelled as `none`), validate, and
store into the `validation_results` dict.  Also counts the validation
calls made. -/
def build_validation_results (env : List Char → Nat → AttemptOutcome)
    (edge_results : List (List Char × ScenarioSummary)) :
    List (List Char) → List (List Char × ValidationResult) →
    Option (List (List Char × ValidationResult)) × Nat
  | [], acc => (some acc, 0)
  | s :: rest, acc =>
    match dictGet s edge_results with
    | none => (none, 0)
    | some summ =>
      let tailBuild := build_validation_results env edge_results rest
        (dictInsert acc s (validate_scenario env s summ.response))
      (tailBuild.1, tailBuild.2 + 1)

/-- The partition loop at true_positive_detector.py lines 192-199: each
entry of `validation_results` goes to `true_positives` when
`result["success"] and result["is_valid"]`, otherwise to
`false_positives`. -/
def split_positives :
    List (List Char × ValidationResult) → List (List Char) × List (List Char)
  | [] => ([], [])
  | p :: rest =>
    let tailSplit := split_positives rest
    if p.2.isTruePositive then (p.1 :: tailSplit.1, tailSplit.2)
    else (tailSplit.1, p.1 :: tailSplit.2)

/-- `TruePositiveDetector._calculate_overall_confidence`
(true_positive_detector.py lines 253-271): mean of the confidences of the
successful validation results, 0.0 when there are none (the separate
empty-dict early return falls under the same case). -/
def calculate_overall_confidence
    (validation_results : List (List Char × ValidationResult)) : ℚ :=
  let valid_results := validation_results.filter (fun p => p.2.isSuccess)
  if valid_results = [] then 0
  else (valid_results.map (fun p => p.2.confidenceValue)).sum / valid_results.length

/-- Result dict of `TruePositiveDetector.detect_true_positives`: the
failure dict, the short-circuit dict returned when stage 1 detected
nothing (which carries `true_positives = []` and has no `false_positives`
key), or the full results dict. -/
inductive DetectResult where
  | dfailure (error : List Char)
  | noDetections (camera_id timestamp : List Char)
      (edge_results : List (List Char × ScenarioSummary))
  | complete (camera_id timestamp : List Char)
      (validation_results : List (List Char × ValidationResult))
      (true_positives false_positives : List (List Char))
      (confidence : ℚ)
deriving DecidableEq

/-- `result.get("success", False)`. -/
def DetectResult.isSuccess : DetectResult → Bool
  | .dfailure _ => false
  | _ => true

/-- `result.get("true_positives", [])`: the short-circuit dict stores the
literal empty list, the failure dict lacks the key. -/
def DetectResult.truePositivesOf : DetectResult → List (List Char)
  | .complete _ _ _ tps _ _ => tps
  | _ => []

/-- `result.get("false_positives", [])`: only the full results dict has
this key. -/
def DetectResult.falsePositivesOf : DetectResult → List (List Char)
  | .complete _ _ _ _ fps _ => fps
  | _ => []

/-- `result["final_decision"]["confidence"]` (0 where the key is absent). -/
def DetectResult.confidenceOf : DetectResult → ℚ
  | .complete _ _ _ _ _ c => c
  | _ => 0

/-- `result.get("confidence", 0)` as read by the scheduler
(scheduler.py line 89): `detect_true_positives` never writes a top-level
`confidence` key (the overall confidence lives under `final_decision`),
so the default 0 is returned for every result shape. -/
def DetectResult.topConfidenceOf : DetectResult → ℚ := fun _ => 0

/-- Error of the `if not edge_data` branch. -/
def no_edge_results_error : List Char := str "No edge results found"

/-- Error dict produced by the outer exception handler of
`detect_true_positives` when the per-scenario loop raises KeyError. -/
def key_error_message : List Char := str "True positive detection failed"

/-- `TruePositiveDetector.detect_true_positives` (true_positive_detector.py
lines 138-251).  `stored` is what the record store returned for the
camera (retrieval itself is the external store, spec §6).  Returns the
result dict together with the number of validation model calls made.
Times, logging, and the write-back of validation results to the store are
side effects not reflected in the returned dict. -/
def detect_true_positives (env : List Char → Nat → AttemptOutcome)
    (stored : Option EdgeRecord) : DetectResult × Nat :=
  match stored with
  | none => (.dfailure no_edge_results_error, 0)
  | some r =>
    if r.detected_scenarios = [] then
      (.noDetections r.camera_id r.timestamp r.edge_results, 0)
    else
      let built := build_validation_results env r.edge_results r.detected_scenarios []
      match built.1 with
      | none => (.dfailure key_error_message, built.2)
      | some validation_results =>
        let parts := split_positives validation_results
        (.complete r.camera_id r.timestamp validation_results parts.1 parts.2
          (calculate_overall_confidence validation_results), built.2)

/-- The fixed recommended-action table
(`TruePositiveDetector.get_recommended_actions`, true_positive_detector.py
lines 283-290). -/
def action_map : List (List Char × List Char) :=
  [(str "smoke_detection",
    str "Immediately investigate source of smoke and evacuate if necessary"),
   (str "fire_detection",
    str "Activate fire alarm, call emergency services, and evacuate area"),
   (str "fall_detection",
    str "Provide immediate medical assistance and secure the area"),
   (str "debris_detection",
    str "Clear debris and investigate source of obstruction"),
   (str "missing_fire_extinguisher",
    str "Replace missing fire extinguisher immediately"),
   (str "unattended_object",
    str "Investigate unattended object and remove if safe to do so")]

/-- The generic fallback action string. -/
def default_action : List Char := str "Investigate and take appropriate safety measures"

/-- `TruePositiveDetector.get_recommended_actions` (lines 273-293). -/
def get_recommended_actions (true_positives : List (List Char)) :
    List (List Char × List Char) :=
  true_positives.map (fun s => (s, (dictGet s action_map).getD default_action))

/-- Return value of `TruePositiveDetector.generate_alert`: either the
no-alert dict with its reason, or the alert payload. -/
inductive AlertOutcome where
  | noAlert (reason : List Char)
  | alert (priority camera_id timestamp : List Char)
      (violations : List (List Char)) (confidence : ℚ)
      (recommended_actions : List (List Char × List Char))
deriving DecidableEq

/-- `TruePositiveDetector.generate_alert` (true_positive_detector.py lines
295-326).  Note the source's priority expression is
`"high" if len(true_positives) > 0 else "low"`, kept verbatim. -/
def generate_alert : DetectResult → AlertOutcome
  | .dfailure _ => .noAlert (str "Detection failed")
  | .noDetections .. => .noAlert (str "No violations detected")
  | .complete camera_id timestamp _ true_positives _ confidence =>
    if true_positives = [] then .noAlert (str "No violations detected")
    else
      .alert (if 0 < true_positives.length then str "high" else str "low")
        camera_id timestamp true_positives confidence
        (get_recommended_actions true_positives)

/-- The priority of a generated alert, if one was generated. -/
def AlertOutcome.priorityOf : AlertOutcome → Option (List Char)
  | .noAlert _ => none
  | .alert p .. => some p

/-- One alert dict built by `EventScheduler._generate_alerts`
(scheduler.py lines 126-136). -/
structure SchedulerAlert where
  camera_id : List Char
  scenario : List Char
  confidence : ℚ
  timestamp : List Char
  priority : List Char
  action_required : Bool
deriving DecidableEq

/-- `EventScheduler._generate_alerts` (scheduler.py lines 116-151): one
alert per true-positive scenario, priority
`"HIGH" if confidence > 0.8 else "MEDIUM"`. -/
def scheduler_generate_alerts (camera_id now : List Char)
    (true_positives : List (List Char)) (confidence : ℚ) : List SchedulerAlert :=
  true_positives.map (fun scenario =>
    { camera_id := camera_id, scenario := scenario, confidence := confidence,
      timestamp := now,
      priority := if 8/10 < confidence then str "HIGH" else str "MEDIUM",
      action_required := true })

/-- The record-store surface the scheduler touches.  `CloudStorage` and
`LocalCloudStorage` (cloud_storage.py lines 14-359) define
`store_edge_results`, `retrieve_edge_results`, `get_detected_scenarios`
and `update_validation_status` — and nothing else.  Python resolves
method calls by attribute lookup at call time, so a method a class does
not define is modelled as an `Option` field that is `none` for it:
calling it raises AttributeError. -/
structure CloudStorageApi where
  retrieve_edge_results : List Char → Option EdgeRecord
  list_cameras_with_events : Option (List (List Char))

/-- `LocalCloudStorage` (cloud_storage.py lines 198-359) with the given
stored records: it implements retrieval, but defines no
`list_cameras_with_events` method, so that attribute is absent.
(`CloudStorage`, lines 14-196, likewise does not define it.) -/
def localCloudStorage (records : List Char → Option EdgeRecord) : CloudStorageApi :=
  { retrieve_edge_results := records, list_cameras_with_events := none }

/-- Summary of one scheduler sweep (`pull_events_from_cloud`):
whether the sweep's outermost exception handler fired, and the totals it
logs. -/
structure SweepOutcome where
  aborted_with_error : Bool
  cameras_processed : Nat
  true_positives_found : Nat
deriving DecidableEq

/-- The `for camera_id in cameras` loop of `pull_events_from_cloud`
(scheduler.py lines 79-107): run detection per camera sequentially,
counting processed cameras and true positives; a per-camera exception is
caught and the loop continues (`detect_true_positives` itself catches its
own exceptions, so in this model the per-camera handler never fires). -/
def process_cameras (storage : CloudStorageApi)
    (env : List Char → List Char → Nat → AttemptOutcome) :
    List (List Char) → Nat × Nat
  | [] => (0, 0)
  | camera_id :: rest =>
    let result := (detect_true_positives (env camera_id)
      (storage.retrieve_edge_results camera_id)).1
    let tailCount := process_cameras storage env rest
    if result.isSuccess then
      (tailCount.1 + 1, tailCount.2 + result.truePositivesOf.length)
    else tailCount

/-- `EventScheduler.pull_events_from_cloud` (scheduler.py lines 60-114):
ask the storage object for `list_cameras_with_events()` — an attribute
lookup that raises AttributeError when the storage class does not define
the method, caught by the sweep's outermost handler (line 113) — then
process each returned camera in sequence. -/
def pull_events_from_cloud (storage : CloudStorageApi)
    (env : List Char → List Char → Nat → AttemptOutcome) : SweepOutcome :=
  match storage.list_cameras_with_events with
  | none =>
    { aborted_with_error := true, cameras_processed := 0, true_positives_found := 0 }
  | some cameras =>
    let counts := process_cameras storage env cameras
    { aborted_with_error := false, cameras_processed := counts.1,
      true_positives_found := counts.2 }

/-- Spec-side count (§4.4, §8): the number of frames whose query succeeded
and whose classified verdict is positive.  Stated from the spec's words,
to be compared with what `analyze_frames_for_scenario` computes. -/
def spec_positive_frames (frames : List FrameOutcome) : Nat :=
  frames.countP (fun o => match o with
    | .api (.answer a) => parse_detection (strip a)
    | _ => false)

/-- The value held by the validation-results dict at a key, as dictated by
the loop body: validate against the scenario's stored edge response. -/
def expected_validation (env : List Char → Nat → AttemptOutcome)
    (edge_results : List (List Char × ScenarioSummary)) (s : List Char) :
    ValidationResult :=
  match dictGet s edge_results with
  | some summ => validate_scenario env s summ.response
  | none => .vfail s unknown_scenario_error

/-- Concrete record for the C2 counterexample: one detected scenario with
the short edge narrative "fire". -/
def c2_record : EdgeRecord :=
  { camera_id := str "CAMERA_007", timestamp := str "2026-01-01T00:00:00",
    video_path := str "clip.mp4",
    edge_results := [(str "fire_detection",
      { detected := true, response := str "fire",
        detected_frames := 1, total_frames := 3 })],
    detected_scenarios := [str "fire_detection"] }

/-- Endpoint behaviour for the C2 counterexample: the validation call
succeeds with a verbose confirmation, which classifies as valid but is
not one of the four exact answers. -/
def c2_env : List Char → Nat → AttemptOutcome :=
  fun _ _ => .success (str "yes it is valid")

/-- Concrete record for the C4 witness. -/
def c4_record : EdgeRecord :=
  { camera_id := str "CAMERA_001", timestamp := str "2026-01-01T00:00:00",
    video_path := str "clip.mp4",
    edge_results := [(str "smoke_detection",
      { detected := true, response := str "I see smoke rising",
        detected_frames := 2, total_frames := 3 }),
      (str "fire_detection",
      { detected := false, response := str "no fire visible",
        detected_frames := 0, total_frames := 3 })],
    detected_scenarios := [str "smoke_detection"] }

/-- Endpoint behaviour for the C4 witness. -/
def c4_env : List Char → Nat → AttemptOutcome := fun _ _ => .success (str "yes")

/-- The stored stage-1 summary of the C5 witness record. -/
def c5_summary : ScenarioSummary :=
  { detected := true, response := str "I see smoke rising",
    detected_frames := 2, total_frames := 3 }

/-- Concrete record for the C5 witness. -/
def c5_record : EdgeRecord :=
  { camera_id := str "CAMERA_002", timestamp := str "2026-01-02T00:00:00",
    video_path := str "clip.mp4",
    edge_results := [(str "smoke_detection", c5_summary)],
    detected_scenarios := [str "smoke_detection"] }

/-- Endpoint behaviour for the C5 witness: the validation call succeeds
and answers yes. -/
def c5_env : List Char → Nat → AttemptOutcome := fun _ _ => .success (str "yes")

/-- Attempt behaviour for the C6 witness: transport failures on attempts
0 and 1, success on attempt 2. -/
def c6_env : Nat → AttemptOutcome
  | 0 => .requestError (str "timeout")
  | 1 => .requestError (str "timeout")
  | _ => .success (str "yes")

/-- Endpoint behaviour for the C8 witness: the stage-2 answer is the
exact word yes. -/
def c8_env : List Char → Nat → AttemptOutcome := fun _ _ => .success (str "yes")

/-- Record with no stage-1 detections for the C9 witness. -/
def c9_record : EdgeRecord :=
  { camera_id := str "CAMERA_001", timestamp := str "2026-01-03T00:00:00",
    video_path := str "clip.mp4", edge_results := [], detected_scenarios := [] }

/-- Endpoint behaviour for the C9 witness (never reached). -/
def c9_env : List Char → Nat → AttemptOutcome := fun _ _ => .status429

/-- Per-scenario frame outcomes for the C10 witness: every query fails. -/
def c10_env : List Char → Nat → FrameOutcome :=
  fun _ _ => .api (.apiError (str "connection refused"))

/-! Helper lemmas about the string model. -/

theorem isSpaceChar_lowerChar (c : Char) : isSpaceChar (lowerChar c) = isSpaceChar c := by
  by_cases hA : c = 'A'
  · subst hA; decide
  by_cases hB : c = 'B'
  · subst hB; decide
  by_cases hC : c = 'C'
  · subst hC; decide
  by_cases hD : c = 'D'
  · subst hD; decide
  by_cases hE : c = 'E'
  · subst hE; decide
  by_cases hF : c = 'F'
  · subst hF; decide
  by_cases hG : c = 'G'
  · subst hG; decide
  by_cases hH : c = 'H'
  · subst hH; decide
  by_cases hI : c = 'I'
  · subst hI; decide
  by_cases hJ : c = 'J'
  · subst hJ; decide
  by_cases hK : c = 'K'
  · subst hK; decide
  by_cases hL : c = 'L'
  · subst hL; decide
  by_cases hM : c = 'M'
  · subst hM; decide
  by_cases hN : c = 'N'
  · subst hN; decide
  by_cases hO : c = 'O'
  · subst hO; decide
  by_cases hP : c = 'P'
  · subst hP; decide
  by_cases hQ : c = 'Q'
  · subst hQ; decide
  by_cases hR : c = 'R'
  · subst hR; decide
  by_cases hS : c = 'S'
  · subst hS; decide
  by_cases hT : c = 'T'
  · subst hT; decide
  by_cases hU : c = 'U'
  · subst hU; decide
  by_cases hV : c = 'V'
  · subst hV; decide
  by_cases hW : c = 'W'
  · subst hW; decide
  by_cases hX : c = 'X'
  · subst hX; decide
  by_cases hY : c = 'Y'
  · subst hY; decide
  by_cases hZ : c = 'Z'
  · subst hZ; decide
  have hcc : lowerChar c = c := by
    unfold lowerChar
    rw [if_neg hA, if_neg hB, if_neg hC, if_neg hD, if_neg hE, if_neg hF,
        if_neg hG, if_neg hH, if_neg hI, if_neg hJ, if_neg hK, if_neg hL,
        if_neg hM, if_neg hN, if_neg hO, if_neg hP, if_neg hQ, if_neg hR,
        if_neg hS, if_neg hT, if_neg hU, if_neg hV, if_neg hW, if_neg hX,
        if_neg hY, if_neg hZ]
  rw [hcc]

theorem dropWhile_head_false {α : Type} (p : α → Bool) (l : List α) (c : α)
    (h : (l.dropWhile p).head? = some c) : p c = false := by
  induction l with
  | nil => simp [List.dropWhile] at h
  | cons a t ih =>
    by_cases hpa : p a = true
    · rw [List.dropWhile_cons_of_pos hpa] at h
      exact ih h
    · rw [List.dropWhile_cons_of_neg hpa] at h
      rw [List.head?_cons, Option.some.injEq] at h
      subst h
      simpa using hpa

theorem dropWhile_eq_self_of_head {α : Type} (p : α → Bool) (l : List α)
    (h : ∀ c, l.head? = some c → p c = false) : l.dropWhile p = l := by
  cases l with
  | nil => rfl
  | cons a t =>
    have ha := h a rfl
    rw [List.dropWhile_cons_of_neg (by simp [ha])]

theorem dropWhile_dropWhile {α : Type} (p : α → Bool) (l : List α) :
    (l.dropWhile p).dropWhile p = l.dropWhile p :=
  dropWhile_eq_self_of_head p _ (fun c h => dropWhile_head_false p l c h)

theorem getLast?_dropWhile {α : Type} (p : α → Bool) (l : List α)
    (h : l.dropWhile p ≠ []) : (l.dropWhile p).getLast? = l.getLast? := by
  induction l with
  | nil => simp [List.dropWhile] at h
  | cons a t ih =>
    by_cases hpa : p a = true
    · rw [List.dropWhile_cons_of_pos hpa] at h ⊢
      rw [ih h]
      cases t with
      | nil => simp [List.dropWhile] at h
      | cons b t2 => rw [List.getLast?_cons_cons]
    · rw [List.dropWhile_cons_of_neg hpa]

theorem strip_head_false (l : List Char) (c : Char)
    (h : (strip l).head? = some c) : isSpaceChar c = false := by
  unfold strip at h
  rw [List.head?_reverse] at h
  have hne : (l.dropWhile isSpaceChar).reverse.dropWhile isSpaceChar ≠ [] := by
    intro hnil
    rw [hnil] at h
    simp at h
  rw [getLast?_dropWhile _ _ hne, List.getLast?_reverse] at h
  exact dropWhile_head_false _ _ _ h

theorem strip_strip (l : List Char) : strip (strip l) = strip l := by
  have h1 : (strip l).dropWhile isSpaceChar = strip l :=
    dropWhile_eq_self_of_head _ _ (fun c h => strip_head_false l c h)
  have h2 : (strip l).reverse = (l.dropWhile isSpaceChar).reverse.dropWhile isSpaceChar := by
    unfold strip
    rw [List.reverse_reverse]
  calc strip (strip l)
      = (((strip l).dropWhile isSpaceChar).reverse.dropWhile isSpaceChar).reverse := rfl
    _ = ((strip l).reverse.dropWhile isSpaceChar).reverse := by rw [h1]
    _ = (((l.dropWhile isSpaceChar).reverse.dropWhile isSpaceChar).dropWhile
          isSpaceChar).reverse := by rw [h2]
    _ = ((l.dropWhile isSpaceChar).reverse.dropWhile isSpaceChar).reverse := by
          rw [dropWhile_dropWhile]
    _ = strip l := rfl

theorem dropWhile_lower (l : List Char) :
    (lowerStr l).dropWhile isSpaceChar = lowerStr (l.dropWhile isSpaceChar) := by
  have hc : (isSpaceChar ∘ lowerChar) = isSpaceChar :=
    funext (fun c => isSpaceChar_lowerChar c)
  unfold lowerStr
  rw [List.dropWhile_map, hc]

theorem reverse_lower (l : List Char) : (lowerStr l).reverse = lowerStr l.reverse := by
  unfold lowerStr
  exact (List.map_reverse lowerChar l).symm

theorem strip_lower_comm (l : List Char) : strip (lowerStr l) = lowerStr (strip l) := by
  unfold strip
  rw [dropWhile_lower, reverse_lower, dropWhile_lower, reverse_lower]

/-! Helper lemmas about the dict model. -/

theorem dictGet_mem {α : Type} (k : List Char) (m : List (List Char × α)) (v : α)
    (h : dictGet k m = some v) : (k, v) ∈ m := by
  induction m with
  | nil => simp [dictGet] at h
  | cons p rest ih =>
    rw [dictGet] at h
    by_cases hk : k = p.1
    · rw [if_pos hk] at h
      have hv : p.2 = v := Option.some.inj h
      have hp : p = (k, v) := by
        obtain ⟨p1, p2⟩ := p
        simp_all
      exact List.mem_cons.mpr (Or.inl hp.symm)
    · rw [if_neg hk] at h
      exact List.mem_cons_of_mem _ (ih h)

theorem mem_keys_iff_isSome {α : Type} (k : List Char) (m : List (List Char × α)) :
    k ∈ m.map Prod.fst ↔ (dictGet k m).isSome := by
  induction m with
  | nil => simp [dictGet]
  | cons p rest ih =>
    rw [List.map_cons, List.mem_cons, dictGet]
    by_cases hk : k = p.1
    · rw [if_pos hk]
      exact iff_of_true (Or.inl hk) rfl
    · rw [if_neg hk]
      constructor
      · rintro (he | hm)
        · exact absurd he hk
        · exact ih.mp hm
      · intro hs
        exact Or.inr (ih.mpr hs)

theorem dictGet_of_mem_nodup {α : Type} (m : List (List Char × α))
    (hnd : (m.map Prod.fst).Nodup) (p : List Char × α) (hp : p ∈ m) :
    dictGet p.1 m = some p.2 := by
  induction m with
  | nil => simp at hp
  | cons a rest ih =>
    rw [List.map_cons, List.nodup_cons] at hnd
    rcases List.mem_cons.mp hp with h | h
    · subst h
      rw [dictGet, if_pos rfl]
    · have hne : p.1 ≠ a.1 := by
        intro he
        apply hnd.1
        rw [← he]
        exact List.mem_map.mpr ⟨p, h, rfl⟩
      rw [dictGet, if_neg hne]
      exact ih hnd.2 h

theorem mem_filter_keys_of_get {α : Type} (q : α → Bool) (k : List Char)
    (m : List (List Char × α)) (v : α) (hget : dictGet k m = some v)
    (hq : q v = true) : k ∈ (m.filter (fun p => q p.2)).map Prod.fst := by
  have hm := dictGet_mem k m v hget
  have hf : (k, v) ∈ m.filter (fun p => q p.2) := List.mem_filter.mpr ⟨hm, hq⟩
  exact List.mem_map.mpr ⟨(k, v), hf, rfl⟩

theorem get_of_mem_filter_keys {α : Type} (q : α → Bool) (k : List Char)
    (m : List (List Char × α)) (hnd : (m.map Prod.fst).Nodup)
    (h : k ∈ (m.filter (fun p => q p.2)).map Prod.fst) :
    ∃ v, dictGet k m = some v ∧ q v = true := by
  obtain ⟨p, hpmem, hpk⟩ := List.mem_map.mp h
  obtain ⟨hpm, hpq⟩ := List.mem_filter.mp hpmem
  subst hpk
  exact ⟨p.2, dictGet_of_mem_nodup m hnd p hpm, hpq⟩

theorem dictGet_overwrite {α : Type} (k : List Char) (v : α)
    (m : List (List Char × α)) (h : (dictGet k m).isSome) :
    dictGet k (m.map (fun p => if p.1 = k then (k, v) else p)) = some v := by
  induction m with
  | nil => simp [dictGet] at h
  | cons p rest ih =>
    rw [List.map_cons]
    by_cases hk : p.1 = k
    · rw [if_pos hk, dictGet, if_pos rfl]
    · have hk2 : k ≠ p.1 := fun he => hk he.symm
      rw [if_neg hk, dictGet, if_neg hk2]
      apply ih
      rw [dictGet, if_neg hk2] at h
      exact h

theorem dictGet_append_absent {α : Type} (k : List Char) (v : α)
    (m : List (List Char × α)) (h : dictGet k m = none) :
    dictGet k (m ++ [(k, v)]) = some v := by
  induction m with
  | nil => rw [List.nil_append, dictGet, if_pos rfl]
  | cons p rest ih =>
    rw [dictGet] at h
    by_cases hk : k = p.1
    · rw [if_pos hk] at h
      exact absurd h (by simp)
    · rw [if_neg hk] at h
      rw [List.cons_append, dictGet, if_neg hk]
      exact ih h

theorem dictGet_dictInsert_self {α : Type} (m : List (List Char × α))
    (k : List Char) (v : α) : dictGet k (dictInsert m k v) = some v := by
  unfold dictInsert
  by_cases h : (dictGet k m).isSome
  · rw [if_pos h]
    exact dictGet_overwrite k v m h
  · rw [if_neg h]
    exact dictGet_append_absent k v m (Option.not_isSome_iff_eq_none.mp h)

theorem dictGet_overwrite_ne {α : Type} (k k2 : List Char) (v : α)
    (m : List (List Char × α)) (hne : k ≠ k2) :
    dictGet k (m.map (fun p => if p.1 = k2 then (k2, v) else p)) = dictGet k m := by
  induction m with
  | nil => rfl
  | cons p rest ih =>
    rw [List.map_cons]
    by_cases hk : p.1 = k2
    · rw [if_pos hk, dictGet, if_neg hne, dictGet, if_neg (fun he => hne (he.trans hk))]
      exact ih
    · rw [if_neg hk, dictGet, dictGet]
      by_cases hkp : k = p.1
      · rw [if_pos hkp, if_pos hkp]
      · rw [if_neg hkp, if_neg hkp]
        exact ih

theorem dictGet_append_ne {α : Type} (k k2 : List Char) (v : α)
    (m : List (List Char × α)) (hne : k ≠ k2) :
    dictGet k (m ++ [(k2, v)]) = dictGet k m := by
  induction m with
  | nil =>
    simp only [List.nil_append, dictGet]
    rw [if_neg hne]
  | cons p rest ih =>
    rw [List.cons_append, dictGet, dictGet]
    by_cases hkp : k = p.1
    · rw [if_pos hkp, if_pos hkp]
    · rw [if_neg hkp, if_neg hkp]
      exact ih

theorem dictGet_dictInsert_ne {α : Type} (m : List (List Char × α))
    (k k2 : List Char) (v : α) (hne : k ≠ k2) :
    dictGet k (dictInsert m k2 v) = dictGet k m := by
  unfold dictInsert
  split
  · exact dictGet_overwrite_ne k k2 v m hne
  · exact dictGet_append_ne k k2 v m hne

theorem mem_keys_dictInsert {α : Type} (m : List (List Char × α))
    (k k2 : List Char) (v : α) :
    k ∈ (dictInsert m k2 v).map Prod.fst ↔ k = k2 ∨ k ∈ m.map Prod.fst := by
  by_cases hk : k = k2
  · subst hk
    refine iff_of_true ?_ (Or.inl rfl)
    apply (mem_keys_iff_isSome k (dictInsert m k v)).mpr
    rw [dictGet_dictInsert_self]
    rfl
  · rw [mem_keys_iff_isSome, dictGet_dictInsert_ne m k k2 v hk, ← mem_keys_iff_isSome]
    exact (or_iff_right hk).symm

theorem keys_nodup_dictInsert {α : Type} (m : List (List Char × α))
    (k : List Char) (v : α) (hnd : (m.map Prod.fst).Nodup) :
    ((dictInsert m k v).map Prod.fst).Nodup := by
  unfold dictInsert
  split
  · next h =>
    rw [List.map_map]
    have hkeys : m.map (Prod.fst ∘ fun p => if p.1 = k then (k, v) else p) = m.map Prod.fst := by
      apply List.map_congr_left
      intro p _
      show (if p.1 = k then (k, v) else p).1 = p.1
      by_cases hk : p.1 = k
      · rw [if_pos hk]
        exact hk.symm
      · rw [if_neg hk]
    rw [hkeys]
    exact hnd
  · next h =>
    rw [List.map_append, List.nodup_append]
    refine ⟨hnd, List.nodup_singleton _, ?_⟩
    intro a ha hb
    simp at hb
    rw [hb] at ha
    exact absurd ((mem_keys_iff_isSome k m).mp ha) h

/-! Lemmas about the validation-results loop and the partition. -/

theorem build_validation_spec (env : List Char → Nat → AttemptOutcome)
    (er : List (List Char × ScenarioSummary)) :
    ∀ (ds : List (List Char)) (acc : List (List Char × ValidationResult)),
    (∀ s, s ∈ ds → (dictGet s er).isSome) →
    (acc.map Prod.fst).Nodup →
    (∀ s v, dictGet s acc = some v → v = expected_validation env er s) →
    ∃ d, build_validation_results env er ds acc = (some d, ds.length)
      ∧ (d.map Prod.fst).Nodup
      ∧ (∀ s, s ∈ d.map Prod.fst ↔ s ∈ acc.map Prod.fst ∨ s ∈ ds)
      ∧ (∀ s v, dictGet s d = some v → v = expected_validation env er s) := by
  intro ds
  induction ds with
  | nil =>
    intro acc _ hnd hval
    refine ⟨acc, rfl, hnd, ?_, hval⟩
    intro s
    constructor
    · exact fun h => Or.inl h
    · rintro (h | h)
      · exact h
      · exact absurd h (List.not_mem_nil s)
  | cons s0 rest ih =>
    intro acc hsome hnd hval
    obtain ⟨summ, hsumm⟩ :=
      Option.isSome_iff_exists.mp (hsome s0 (List.mem_cons_self s0 rest))
    have hnd2 : ((dictInsert acc s0 (validate_scenario env s0 summ.response)).map
        Prod.fst).Nodup := keys_nodup_dictInsert acc s0 _ hnd
    have hval2 : ∀ s v,
        dictGet s (dictInsert acc s0 (validate_scenario env s0 summ.response)) = some v →
        v = expected_validation env er s := by
      intro s v hget
      by_cases he : s = s0
      · subst he
        rw [dictGet_dictInsert_self] at hget
        simp only [expected_validation, hsumm]
        exact (Option.some.inj hget).symm
      · rw [dictGet_dictInsert_ne acc s s0 _ he] at hget
        exact hval s v hget
    obtain ⟨d, hbuild, hdnd, hdmem, hdval⟩ :=
      ih (dictInsert acc s0 (validate_scenario env s0 summ.response))
        (fun s hs => hsome s (List.mem_cons_of_mem s0 hs)) hnd2 hval2
    refine ⟨d, ?_, hdnd, ?_, hdval⟩
    · simp only [build_validation_results, hsumm]
      rw [hbuild]
      rfl
    · intro s
      rw [hdmem s, mem_keys_dictInsert, List.mem_cons]
      tauto

theorem split_positives_mem (d : List (List Char × ValidationResult)) (s : List Char) :
    (s ∈ (split_positives d).1 ∨ s ∈ (split_positives d).2) ↔ s ∈ d.map Prod.fst := by
  induction d with
  | nil => simp [split_positives]
  | cons p rest ih =>
    simp only [split_positives, List.map_cons]
    by_cases hp : p.2.isTruePositive = true
    · rw [if_pos hp]
      simp only [List.mem_cons]
      rw [or_assoc]
      exact or_congr_right ih
    · rw [if_neg hp]
      simp only [List.mem_cons]
      rw [or_left_comm]
      exact or_congr_right ih

theorem split_positives_tp_mem :
    ∀ (d : List (List Char × ValidationResult)), (d.map Prod.fst).Nodup →
    ∀ s, (s ∈ (split_positives d).1 ↔
      ∃ v, dictGet s d = some v ∧ v.isTruePositive = true)
  | [] => by
    intro _ s
    simp [split_positives, dictGet]
  | p :: rest => by
    intro hnd s
    rw [List.map_cons, List.nodup_cons] at hnd
    have ih := split_positives_tp_mem rest hnd.2 s
    simp only [split_positives]
    by_cases hp : p.2.isTruePositive = true
    · rw [if_pos hp]
      constructor
      · intro hmem
        rcases List.mem_cons.mp hmem with he | hm
        · refine ⟨p.2, ?_, hp⟩
          rw [dictGet, if_pos he]
        · obtain ⟨v, hv, hvt⟩ := ih.mp hm
          refine ⟨v, ?_, hvt⟩
          rw [dictGet, if_neg ?_]
          · exact hv
          · intro he
            apply hnd.1
            rw [← he]
            exact (mem_keys_iff_isSome s rest).mpr (by rw [hv]; rfl)
      · rintro ⟨v, hv, hvt⟩
        rw [dictGet] at hv
        by_cases he : s = p.1
        · exact List.mem_cons.mpr (Or.inl he)
        · rw [if_neg he] at hv
          exact List.mem_cons.mpr (Or.inr (ih.mpr ⟨v, hv, hvt⟩))
    · rw [if_neg hp]
      constructor
      · intro hmem
        obtain ⟨v, hv, hvt⟩ := ih.mp hmem
        refine ⟨v, ?_, hvt⟩
        rw [dictGet, if_neg ?_]
        · exact hv
        · intro he
          apply hnd.1
          rw [← he]
          exact (mem_keys_iff_isSome s rest).mpr (by rw [hv]; rfl)
      · rintro ⟨v, hv, hvt⟩
        rw [dictGet] at hv
        by_cases he : s = p.1
        · rw [if_pos he] at hv
          have hpv : p.2 = v := Option.some.inj hv
          exact absurd (hpv ▸ hvt) hp
        · rw [if_neg he] at hv
          exact ih.mpr ⟨v, hv, hvt⟩

theorem split_positives_fp_mem :
    ∀ (d : List (List Char × ValidationResult)), (d.map Prod.fst).Nodup →
    ∀ s, (s ∈ (split_positives d).2 ↔
      ∃ v, dictGet s d = some v ∧ v.isTruePositive = false)
  | [] => by
    intro _ s
    simp [split_positives, dictGet]
  | p :: rest => by
    intro hnd s
    rw [List.map_cons, List.nodup_cons] at hnd
    have ih := split_positives_fp_mem rest hnd.2 s
    simp only [split_positives]
    by_cases hp : p.2.isTruePositive = true
    · rw [if_pos hp]
      constructor
      · intro hmem
        obtain ⟨v, hv, hvt⟩ := ih.mp hmem
        refine ⟨v, ?_, hvt⟩
        rw [dictGet, if_neg ?_]
        · exact hv
        · intro he
          apply hnd.1
          rw [← he]
          exact (mem_keys_iff_isSome s rest).mpr (by rw [hv]; rfl)
      · rintro ⟨v, hv, hvt⟩
        rw [dictGet] at hv
        by_cases he : s = p.1
        · rw [if_pos he] at hv
          have hpv : p.2 = v := Option.some.inj hv
          rw [hpv, hvt] at hp
          exact absurd hp (by simp)
        · rw [if_neg he] at hv
          exact ih.mpr ⟨v, hv, hvt⟩
    · rw [if_neg hp]
      have hpf : p.2.isTruePositive = false := by
        cases hx : p.2.isTruePositive
        · rfl
        · exact absurd hx hp
      constructor
      · intro hmem
        rcases List.mem_cons.mp hmem with he | hm
        · refine ⟨p.2, ?_, hpf⟩
          rw [dictGet, if_pos he]
        · obtain ⟨v, hv, hvt⟩ := ih.mp hm
          refine ⟨v, ?_, hvt⟩
          rw [dictGet, if_neg ?_]
          · exact hv
          · intro he
            apply hnd.1
            rw [← he]
            exact (mem_keys_iff_isSome s rest).mpr (by rw [hv]; rfl)
      · rintro ⟨v, hv, hvt⟩
        rw [dictGet] at hv
        by_cases he : s = p.1
        · exact List.mem_cons.mpr (Or.inl he)
        · rw [if_neg he] at hv
          exact List.mem_cons.mpr (Or.inr (ih.mpr ⟨v, hv, hvt⟩))

theorem split_positives_disjoint (d : List (List Char × ValidationResult))
    (hnd : (d.map Prod.fst).Nodup) (s : List Char) :
    ¬ (s ∈ (split_positives d).1 ∧ s ∈ (split_positives d).2) := by
  rintro ⟨h1, h2⟩
  obtain ⟨v, hv, hvt⟩ := (split_positives_tp_mem d hnd s).mp h1
  obtain ⟨w, hw, hwt⟩ := (split_positives_fp_mem d hnd s).mp h2
  rw [hv] at hw
  have hvw : v = w := Option.some.inj hw
  rw [← hvw, hvt] at hwt
  exact absurd hwt (by simp)

/-! Lemma relating the analyzer loop to the spec-side frame count. -/

theorem analyze_loop_count (frames : List FrameOutcome) :
    ∀ i, (analyze_loop frames i).2 = spec_positive_frames frames := by
  induction frames with
  | nil =>
    intro i
    rfl
  | cons o rest ih =>
    intro i
    cases o with
    | encodeFail =>
      simp only [analyze_loop, spec_positive_frames, List.countP_cons]
      rw [ih (i + 1)]
      simp [spec_positive_frames]
    | api res =>
      cases res with
      | apiError e =>
        simp only [analyze_loop, spec_positive_frames, List.countP_cons]
        rw [ih (i + 1)]
        simp [spec_positive_frames]
      | answer a =>
        simp only [analyze_loop, spec_positive_frames, List.countP_cons]
        rw [ih (i + 1)]
        simp [spec_positive_frames]

/-! Characterization of the retrying client, and of the full-validation path
of the detection engine. -/

theorem call_moondream_api_eq (env : Nat → AttemptOutcome) :
    call_moondream_api env =
      match env 0 with
      | .success a => (.answer a, 1)
      | .status429 => (.apiError rate_limit_message, 1)
      | .requestError _ =>
        match env 1 with
        | .success a => (.answer a, 2)
        | .status429 => (.apiError rate_limit_message, 2)
        | .requestError _ =>
          match env 2 with
          | .success a => (.answer a, 3)
          | .status429 => (.apiError rate_limit_message, 3)
          | .requestError e => (.apiError e, 3) := by
  show call_loop env (List.range max_retries) = _
  have hr : List.range max_retries = [0, 1, 2] := rfl
  rw [hr]
  cases h0 : env 0 <;> cases h1 : env 1 <;> cases h2 : env 2 <;>
    simp [call_loop, max_retries, h0, h1, h2]

theorem detect_complete_eq (env : List Char → Nat → AttemptOutcome) (r : EdgeRecord)
    (hds : ¬ r.detected_scenarios = [])
    (d : List (List Char × ValidationResult))
    (hbuild : build_validation_results env r.edge_results r.detected_scenarios [] =
      (some d, r.detected_scenarios.length)) :
    detect_true_positives env (some r) =
      (DetectResult.complete r.camera_id r.timestamp d (split_positives d).1
        (split_positives d).2 (calculate_overall_confidence d),
       r.detected_scenarios.length) := by
  simp only [detect_true_positives]
  rw [if_neg hds, hbuild]

/-- C1 counterexample: for the response text "smoke cleared" the number of
positive indicator matches (smoke) equals the number of negative indicator
matches (clear), yet the stage-1 classifier's verdict is false, not true:
`_parse_detection` returns `positive_count > negative_count`, which is
false on a tie. -/
theorem c1_counterexample :
    countIndicators positive_indicators (strip (lowerStr (str "smoke cleared"))) =
      countIndicators negative_indicators (strip (lowerStr (str "smoke cleared")))
    ∧ parse_detection (str "smoke cleared") = false := by
  constructor
  · decide
  · decide

/-- C1 (amended): in stage-1 edge classification, for every response text
in which the number of positive indicator substrings found equals the
number of negative indicator substrings found, the classifier's verdict is
false — ties favor false, because the verdict requires strictly more
positive than negative matches. -/
theorem c1_tie_verdict_false (response : List Char)
    (h : countIndicators positive_indicators (strip (lowerStr response)) =
         countIndicators negative_indicators (strip (lowerStr response))) :
    parse_detection response = false := by
  simp only [parse_detection]
  rw [h]
  simp

/-- Witness for C1 (amended) at the concrete tied response
"unattended object, area clear" (one positive match, one negative match). -/
theorem c1_tie_verdict_false_witness :
    (countIndicators positive_indicators
        (strip (lowerStr (str "unattended object, area clear"))) =
      countIndicators negative_indicators
        (strip (lowerStr (str "unattended object, area clear"))))
    ∧ parse_detection (str "unattended object, area clear") = false :=
  ⟨by decide,
   c1_tie_verdict_false (str "unattended object, area clear") (by decide)⟩

/-- C3: the scheduler sweep can never obtain the pending-camera set from
the repository's own record-store classes.  `pull_events_from_cloud` calls
`cloud_storage.list_cameras_with_events()`, a method neither
`LocalCloudStorage` nor `CloudStorage` defines, so every sweep raises
AttributeError, the outermost handler logs it, and zero cameras are
processed — for any stored records and any endpoint behaviour. -/
theorem c3_sweep_never_processes (records : List Char → Option EdgeRecord)
    (env : List Char → List Char → Nat → AttemptOutcome) :
    pull_events_from_cloud (localCloudStorage records) env =
      { aborted_with_error := true, cameras_processed := 0,
        true_positives_found := 0 } := rfl

/-- C6: the vision-query client makes at most 3 attempts; with only
transport failures before attempt `k`, a success at attempt `k` is
returned immediately after `k + 1` attempts, an HTTP 429 at attempt `k`
returns the rate-limited failure immediately after `k + 1` attempts with
no retry, and only when all 3 attempts fail with transport errors does it
return a transport failure (carrying the last error), after exactly 3
attempts. -/
theorem c6_retry_policy (env : Nat → AttemptOutcome) :
    (call_moondream_api env).2 ≤ max_retries
    ∧ (∀ a k, k < max_retries →
        (∀ j, j < k → ∃ m, env j = AttemptOutcome.requestError m) →
        env k = AttemptOutcome.success a →
        call_moondream_api env = (ApiResult.answer a, k + 1))
    ∧ (∀ k, k < max_retries →
        (∀ j, j < k → ∃ m, env j = AttemptOutcome.requestError m) →
        env k = AttemptOutcome.status429 →
        call_moondream_api env = (ApiResult.apiError rate_limit_message, k + 1))
    ∧ ((∀ j, j < max_retries → ∃ m, env j = AttemptOutcome.requestError m) →
        ∃ m, env 2 = AttemptOutcome.requestError m
          ∧ call_moondream_api env = (ApiResult.apiError m, max_retries)) := by
  refine ⟨?_, ?_, ?_, ?_⟩
  · rw [call_moondream_api_eq env]
    cases h0 : env 0 <;> cases h1 : env 1 <;> cases h2 : env 2 <;> simp [max_retries]
  · intro a k hk hprev hsucc
    have hk3 : k < 3 := hk
    interval_cases k
    · rw [call_moondream_api_eq env, hsucc]; try rfl
    · obtain ⟨m0, h0⟩ := hprev 0 (by decide)
      rw [call_moondream_api_eq env, h0, hsucc]; try rfl
    · obtain ⟨m0, h0⟩ := hprev 0 (by decide)
      obtain ⟨m1, h1⟩ := hprev 1 (by decide)
      rw [call_moondream_api_eq env, h0, h1, hsucc]; try rfl
  · intro k hk hprev h429
    have hk3 : k < 3 := hk
    interval_cases k
    · rw [call_moondream_api_eq env, h429]; try rfl
    · obtain ⟨m0, h0⟩ := hprev 0 (by decide)
      rw [call_moondream_api_eq env, h0, h429]; try rfl
    · obtain ⟨m0, h0⟩ := hprev 0 (by decide)
      obtain ⟨m1, h1⟩ := hprev 1 (by decide)
      rw [call_moondream_api_eq env, h0, h1, h429]; try rfl
  · intro hall
    obtain ⟨m0, h0⟩ := hall 0 (by decide)
    obtain ⟨m1, h1⟩ := hall 1 (by decide)
    obtain ⟨m2, h2⟩ := hall 2 (by decide)
    refine ⟨m2, h2, ?_⟩
    rw [call_moondream_api_eq env, h0, h1, h2]; try rfl

/-- Witness for C6: a client that fails with transport errors on attempts
0 and 1 and succeeds on attempt 2 returns that success after exactly 3
attempts (2 retries). -/
theorem c6_retry_policy_witness :
    call_moondream_api c6_env = (ApiResult.answer (str "yes"), 3) :=
  (c6_retry_policy c6_env).2.1 (str "yes") 2 (by decide)
    (fun j hj => by interval_cases j <;> exact ⟨str "timeout", rfl⟩) rfl

/-- C7: for every frame-outcome list and scenario, the stage-1 analyzer's
`detected` flag is true iff at least one successfully queried frame
classifies positive, `detected_frames` equals the number of positively
classified frames, `total_frames` equals the number of input frames,
`detected_frames ≤ total_frames`, and `total_frames = 0` implies
`detected = false`. -/
theorem c7_scenario_vote (frames : List FrameOutcome) (scenario : List Char) :
    ((analyze_frames_for_scenario frames scenario).detected = true
        ↔ 0 < spec_positive_frames frames)
    ∧ (analyze_frames_for_scenario frames scenario).detected_frames =
        spec_positive_frames frames
    ∧ (analyze_frames_for_scenario frames scenario).total_frames = frames.length
    ∧ (analyze_frames_for_scenario frames scenario).detected_frames ≤
        (analyze_frames_for_scenario frames scenario).total_frames
    ∧ ((analyze_frames_for_scenario frames scenario).total_frames = 0 →
        (analyze_frames_for_scenario frames scenario).detected = false) := by
  have hc := analyze_loop_count frames 0
  have hdf : (analyze_frames_for_scenario frames scenario).detected_frames =
      spec_positive_frames frames := hc
  refine ⟨?_, hdf, rfl, ?_, ?_⟩
  · rw [show (analyze_frames_for_scenario frames scenario).detected =
        decide (0 < (analyze_loop frames 0).2) from rfl, hc]
    exact decide_eq_true_iff
  · rw [hdf]
    unfold spec_positive_frames
    exact List.countP_le_length _
  · intro h0
    have hlen : frames.length = 0 := h0
    have hnil : frames = [] := List.length_eq_zero.mp hlen
    subst hnil
    rfl

/-- Witness for C7 at the empty frame list: zero total frames forces
`detected = false`. -/
theorem c7_scenario_vote_witness :
    (analyze_frames_for_scenario [] (str "smoke_detection")).detected = false :=
  (c7_scenario_vote [] (str "smoke_detection")).2.2.2.2 rfl

/-- C9: when stage 1 detected no scenarios at all (empty
`detected_scenarios`, which includes an empty `scenario_results` map), the
validation engine returns the short-circuit success result without making
any model query (the query counter is 0), the result reports empty
`true_positives` and empty `false_positives` (the latter by the absent-key
default), and `generate_alert` generates no alert from it. -/
theorem c9_short_circuit (env : List Char → Nat → AttemptOutcome) (r : EdgeRecord)
    (h : r.detected_scenarios = []) :
    detect_true_positives env (some r) =
      (DetectResult.noDetections r.camera_id r.timestamp r.edge_results, 0)
    ∧ (detect_true_positives env (some r)).1.isSuccess = true
    ∧ (detect_true_positives env (some r)).1.truePositivesOf = []
    ∧ (detect_true_positives env (some r)).1.falsePositivesOf = []
    ∧ generate_alert (detect_true_positives env (some r)).1 =
        AlertOutcome.noAlert (str "No violations detected") := by
  have hd : detect_true_positives env (some r) =
      (DetectResult.noDetections r.camera_id r.timestamp r.edge_results, 0) := by
    simp only [detect_true_positives]
    rw [if_pos h]
  refine ⟨hd, ?_, ?_, ?_, ?_⟩ <;> rw [hd] <;> rfl

/-- Witness for C9 at a concrete record with an empty scenario map. -/
theorem c9_short_circuit_witness :
    detect_true_positives c9_env (some c9_record) =
      (DetectResult.noDetections (str "CAMERA_001") (str "2026-01-03T00:00:00") [], 0) :=
  (c9_short_circuit c9_env c9_record rfl).1

/-- C10: for every video whose edge sweep succeeds (some frames were
extracted), the record's `scenario_results` map has exactly the six fixed
scenarios as keys, in order (each key carrying a four-field
`ScenarioSummary` by construction), and `detected_scenarios` is exactly
the set of keys whose `detected` value is true. -/
theorem c10_record_shape (camera_id video_path now : List Char) (numFrames : Nat)
    (env : List Char → Nat → FrameOutcome) (h : ¬ numFrames = 0) :
    ∃ r, process_cctv_video camera_id video_path now numFrames env = ProcessOutcome.ok r
      ∧ r.edge_results.map Prod.fst = scenarios
      ∧ r.detected_scenarios =
          (r.edge_results.filter (fun p => p.2.detected)).map Prod.fst
      ∧ (∀ s, s ∈ r.detected_scenarios ↔
          ∃ summ, dictGet s r.edge_results = some summ ∧ summ.detected = true) := by
  have hkeys : (edge_sweep_results numFrames env).map Prod.fst = scenarios := by
    unfold edge_sweep_results
    rw [List.map_map]
    have hid : (Prod.fst ∘ fun s => (s, summarize (analyze_frames_for_scenario
        ((List.range numFrames).map (env s)) s))) = id := funext (fun s => rfl)
    rw [hid, List.map_id]
  have hnd : ((edge_sweep_results numFrames env).map Prod.fst).Nodup := by
    rw [hkeys]
    decide
  refine ⟨edge_sweep_record camera_id video_path now numFrames env, ?_, hkeys, rfl, ?_⟩
  · simp only [process_cctv_video]
    rw [if_neg h]
  · intro s
    constructor
    · intro hs
      exact get_of_mem_filter_keys _ s _ hnd hs
    · rintro ⟨summ, hget, hdet⟩
      exact mem_filter_keys_of_get _ s _ summ hget hdet

/-- Witness for C10 at a concrete three-frame sweep in which every model
query fails. -/
theorem c10_record_shape_witness :
    ∃ r, process_cctv_video (str "CAMERA_001") (str "clip.mp4") (str "t0") 3 c10_env =
        ProcessOutcome.ok r
      ∧ r.edge_results.map Prod.fst = scenarios
      ∧ r.detected_scenarios =
          (r.edge_results.filter (fun p => p.2.detected)).map Prod.fst
      ∧ (∀ s, s ∈ r.detected_scenarios ↔
          ∃ summ, dictGet s r.edge_results = some summ ∧ summ.detected = true) :=
  c10_record_shape (str "CAMERA_001") (str "clip.mp4") (str "t0") 3 c10_env (by decide)

/-- C8: for every scenario whose stage-2 validation call succeeds with
answer `resp`, the per-scenario confidence equals the arithmetic mean of
an edge-confidence (0.8 when the trimmed stage-1 narrative is longer than
10 characters, else 0.5) and a validation-confidence (0.9 when the
trimmed, lower-cased stage-2 answer is exactly one of yes/no/true/false,
else 0.6); the stated mean is spelled from the spec's words, while the
left-hand side is the engine's computation. -/
theorem c8_confidence (env : List Char → Nat → AttemptOutcome)
    (s edge_response resp : List Char)
    (hscen : prompt_defined s = true)
    (hok : run_inference (env s) = InferenceResult.ok resp) :
    validate_scenario env s edge_response =
      ValidationResult.ok s edge_response (lowerStr (strip resp))
        (parse_validation_response (lowerStr (strip resp)))
        (((if 10 < (strip edge_response).length then (8:ℚ)/10 else 5/10) +
          (if lowerStr (strip resp) ∈ exact_answers then (9:ℚ)/10 else 6/10)) / 2) := by
  unfold validate_scenario
  rw [if_pos hscen, hok]
  show ValidationResult.ok s edge_response (lowerStr (strip resp))
      (parse_validation_response (lowerStr (strip resp)))
      (calculate_confidence edge_response (lowerStr (strip resp))) = _
  have hval : calculate_confidence edge_response (lowerStr (strip resp)) =
      ((if 10 < (strip edge_response).length then (8:ℚ)/10 else 5/10) +
        (if lowerStr (strip resp) ∈ exact_answers then (9:ℚ)/10 else 6/10)) / 2 := by
    unfold calculate_confidence
    rw [strip_lower_comm, strip_strip]
  rw [hval]

/-- Witness for C8: validating `fire_detection` with stage-1 narrative
"fire detected" (13 > 10 characters) and stage-2 answer "yes" (an exact
answer) yields `is_valid = true` and confidence (0.8 + 0.9)/2 = 0.85. -/
theorem c8_confidence_witness :
    prompt_defined (str "fire_detection") = true
    ∧ run_inference (c8_env (str "fire_detection")) = InferenceResult.ok (str "yes")
    ∧ validate_scenario c8_env (str "fire_detection") (str "fire detected") =
        ValidationResult.ok (str "fire_detection") (str "fire detected")
          (lowerStr (strip (str "yes")))
          (parse_validation_response (lowerStr (strip (str "yes"))))
          (((if 10 < (strip (str "fire detected")).length then (8:ℚ)/10 else 5/10) +
            (if lowerStr (strip (str "yes")) ∈ exact_answers then (9:ℚ)/10 else 6/10)) / 2)
    ∧ parse_validation_response (lowerStr (strip (str "yes"))) = true
    ∧ (((if 10 < (strip (str "fire detected")).length then (8:ℚ)/10 else 5/10) +
        (if lowerStr (strip (str "yes")) ∈ exact_answers then (9:ℚ)/10 else 6/10)) / 2 =
        17/20) :=
  ⟨by decide, rfl,
   c8_confidence c8_env (str "fire_detection") (str "fire detected") (str "yes")
     (by decide) rfl,
   by decide,
   by rw [if_pos (by decide), if_pos (by decide)]; norm_num⟩

theorem isTruePositive_validate_iff (env : List Char → Nat → AttemptOutcome)
    (s er_resp : List Char) :
    (validate_scenario env s er_resp).isTruePositive = true ↔
      ∃ vr conf, validate_scenario env s er_resp =
        ValidationResult.ok s er_resp vr true conf := by
  unfold validate_scenario
  by_cases hp : prompt_defined s = true
  · rw [if_pos hp]
    cases hri : run_inference (env s) with
    | infError e =>
      simp [ValidationResult.isTruePositive]
    | ok resp =>
      simp only [ValidationResult.isTruePositive]
      constructor
      · intro hval
        exact ⟨lowerStr (strip resp),
          calculate_confidence er_resp (lowerStr (strip resp)), by rw [hval]⟩
      · rintro ⟨vr, conf, heq⟩
        injection heq with h1 h2 h3 h4 h5
  · rw [if_neg hp]
    simp [ValidationResult.isTruePositive]

/-- C4: for every record whose `detected_scenarios` list is the derived
list of `scenario_results` keys with `detected = true` (the data-model
invariant every edge-produced record satisfies, by C10), after validation
the `true_positives` and `false_positives` lists are disjoint and their
union is exactly the set of scenarios whose stage-1 result has
`detected = true` — for any endpoint behaviour. -/
theorem c4_partition_invariant (env : List Char → Nat → AttemptOutcome) (r : EdgeRecord)
    (h1 : (r.edge_results.map Prod.fst).Nodup)
    (h2 : r.detected_scenarios =
      (r.edge_results.filter (fun p => p.2.detected)).map Prod.fst) :
    (∀ s, ¬ (s ∈ (detect_true_positives env (some r)).1.truePositivesOf
        ∧ s ∈ (detect_true_positives env (some r)).1.falsePositivesOf))
    ∧ (∀ s, (s ∈ (detect_true_positives env (some r)).1.truePositivesOf
        ∨ s ∈ (detect_true_positives env (some r)).1.falsePositivesOf)
      ↔ ∃ summ, dictGet s r.edge_results = some summ ∧ summ.detected = true) := by
  by_cases hds : r.detected_scenarios = []
  · have hd : detect_true_positives env (some r) =
        (DetectResult.noDetections r.camera_id r.timestamp r.edge_results, 0) := by
      simp only [detect_true_positives]
      rw [if_pos hds]
    rw [hd]
    constructor
    · intro s hcontra
      exact absurd hcontra.1 (List.not_mem_nil s)
    · intro s
      constructor
      · intro hmem
        rcases hmem with hm | hm <;> exact absurd hm (List.not_mem_nil s)
      · rintro ⟨summ, hget, hdet⟩
        exfalso
        have hmem : s ∈ (r.edge_results.filter (fun p => p.2.detected)).map Prod.fst :=
          mem_filter_keys_of_get _ s _ summ hget hdet
        rw [← h2, hds] at hmem
        exact absurd hmem (List.not_mem_nil s)
  · have hsome : ∀ t, t ∈ r.detected_scenarios → (dictGet t r.edge_results).isSome := by
      intro t ht
      rw [h2] at ht
      obtain ⟨v, hv, _⟩ := get_of_mem_filter_keys _ t _ h1 ht
      rw [hv]
      rfl
    obtain ⟨d, hbuild, hdnd, hdmem, hdval⟩ :=
      build_validation_spec env r.edge_results r.detected_scenarios [] hsome
        List.nodup_nil (fun s v hget => by simp [dictGet] at hget)
    rw [detect_complete_eq env r hds d hbuild]
    constructor
    · intro s
      exact split_positives_disjoint d hdnd s
    · intro s
      constructor
      · intro hmem
        have hkeys : s ∈ d.map Prod.fst := (split_positives_mem d s).mp hmem
        have hsds : s ∈ r.detected_scenarios := by
          rcases (hdmem s).mp hkeys with hacc | hds2
          · exact absurd hacc (List.not_mem_nil s)
          · exact hds2
        rw [h2] at hsds
        exact get_of_mem_filter_keys _ s _ h1 hsds
      · rintro ⟨summ, hget, hdet⟩
        have hsds : s ∈ r.detected_scenarios := by
          rw [h2]
          exact mem_filter_keys_of_get _ s _ summ hget hdet
        have hkeys : s ∈ d.map Prod.fst := (hdmem s).mpr (Or.inr hsds)
        exact (split_positives_mem d s).mpr hkeys

/-- Witness for C4 at a concrete record (one detected scenario, one
undetected) and a concrete endpoint: disjointness at the detected key. -/
theorem c4_partition_invariant_witness :
    ¬ (str "smoke_detection" ∈
        (detect_true_positives c4_env (some c4_record)).1.truePositivesOf
      ∧ str "smoke_detection" ∈
        (detect_true_positives c4_env (some c4_record)).1.falsePositivesOf) :=
  (c4_partition_invariant c4_env c4_record (by decide) (by decide)).1
    (str "smoke_detection")

/-- C5: for every scenario re-examined in stage 2 (a member of the
record's detected list, with its stored stage-1 summary), the scenario
lands in `true_positives` iff the validation call returned a success
result whose classified verdict `is_valid` is true, and it lands in
`false_positives` in every other case — including when the validation
call itself fails. -/
theorem c5_true_positive_iff (env : List Char → Nat → AttemptOutcome) (r : EdgeRecord)
    (s : List Char) (summ : ScenarioSummary)
    (hmem : s ∈ r.detected_scenarios)
    (hks : ∀ t, t ∈ r.detected_scenarios → (dictGet t r.edge_results).isSome)
    (hget : dictGet s r.edge_results = some summ) :
    (s ∈ (detect_true_positives env (some r)).1.truePositivesOf ↔
      ∃ vr conf, validate_scenario env s summ.response =
        ValidationResult.ok s summ.response vr true conf)
    ∧ (s ∈ (detect_true_positives env (some r)).1.falsePositivesOf ↔
      ¬ ∃ vr conf, validate_scenario env s summ.response =
        ValidationResult.ok s summ.response vr true conf) := by
  have hds : ¬ r.detected_scenarios = [] := by
    intro hnil
    rw [hnil] at hmem
    exact absurd hmem (List.not_mem_nil s)
  obtain ⟨d, hbuild, hdnd, hdmem, hdval⟩ :=
    build_validation_spec env r.edge_results r.detected_scenarios [] hks
      List.nodup_nil (fun t v hg => by simp [dictGet] at hg)
  have hkeys : s ∈ d.map Prod.fst := (hdmem s).mpr (Or.inr hmem)
  obtain ⟨v, hvget⟩ := Option.isSome_iff_exists.mp ((mem_keys_iff_isSome s d).mp hkeys)
  have hv : v = validate_scenario env s summ.response := by
    have hexp := hdval s v hvget
    simp only [expected_validation, hget] at hexp
    exact hexp
  rw [hv] at hvget
  rw [detect_complete_eq env r hds d hbuild]
  constructor
  · constructor
    · intro htp
      obtain ⟨w, hwget, hwt⟩ := (split_positives_tp_mem d hdnd s).mp htp
      rw [hvget] at hwget
      have hw : validate_scenario env s summ.response = w := Option.some.inj hwget
      rw [← hw] at hwt
      exact (isTruePositive_validate_iff env s summ.response).mp hwt
    · intro hex
      have hvt : (validate_scenario env s summ.response).isTruePositive = true :=
        (isTruePositive_validate_iff env s summ.response).mpr hex
      exact (split_positives_tp_mem d hdnd s).mpr ⟨_, hvget, hvt⟩
  · constructor
    · intro hfp hex
      obtain ⟨w, hwget, hwt⟩ := (split_positives_fp_mem d hdnd s).mp hfp
      rw [hvget] at hwget
      have hw : validate_scenario env s summ.response = w := Option.some.inj hwget
      have hvt := (isTruePositive_validate_iff env s summ.response).mpr hex
      rw [hw] at hvt
      rw [hvt] at hwt
      exact absurd hwt (by simp)
    · intro hnex
      have hvt : (validate_scenario env s summ.response).isTruePositive = false := by
        cases hx : (validate_scenario env s summ.response).isTruePositive
        · rfl
        · exact absurd ((isTruePositive_validate_iff env s summ.response).mp hx) hnex
      exact (split_positives_fp_mem d hdnd s).mpr ⟨_, hvget, hvt⟩

/-- Witness for C5: with the endpoint answering yes, the detected
smoke_detection scenario is classified a true positive. -/
theorem c5_true_positive_iff_witness :
    str "smoke_detection" ∈
      (detect_true_positives c5_env (some c5_record)).1.truePositivesOf :=
  ((c5_true_positive_iff c5_env c5_record (str "smoke_detection") c5_summary
      (by decide) (by decide) (by decide)).1).mpr
    ⟨lowerStr (strip (str "yes")),
     calculate_confidence (str "I see smoke rising") (lowerStr (strip (str "yes"))),
     rfl⟩

/-- C2 (amended): the scheduler's `_generate_alerts` assigns each alert
priority HIGH iff the confidence value it is handed exceeds 0.8 and
MEDIUM otherwise (never LOW) — but the value the sweep hands it is
`result.get("confidence", 0)`, a key `detect_true_positives` never
writes, so sweep-generated alerts always get priority MEDIUM; the
detector's own `generate_alert` instead assigns priority "high" to every
alert it generates (its "low" branch requires empty true positives,
which cannot generate an alert), regardless of confidence; no generated
alert ever has priority LOW. -/
theorem c2_alert_priority (camera_id now : List Char) (tps : List (List Char))
    (confidence : ℚ) (dr : DetectResult) :
    (∀ a, a ∈ scheduler_generate_alerts camera_id now tps confidence →
        a.priority = (if 8/10 < confidence then str "HIGH" else str "MEDIUM")
        ∧ a.priority ≠ str "LOW")
    ∧ (∀ a, a ∈ scheduler_generate_alerts camera_id now tps dr.topConfidenceOf →
        a.priority = str "MEDIUM")
    ∧ (∀ cam ts vr fps conf2, ¬ tps = [] →
        (generate_alert (DetectResult.complete cam ts vr tps fps conf2)).priorityOf =
          some (str "high"))
    ∧ (generate_alert dr).priorityOf ≠ some (str "low")
    ∧ (generate_alert dr).priorityOf ≠ some (str "LOW") := by
  have hno : (generate_alert dr).priorityOf ≠ some (str "low")
      ∧ (generate_alert dr).priorityOf ≠ some (str "LOW") := by
    cases dr with
    | dfailure e =>
      exact ⟨by simp [generate_alert, AlertOutcome.priorityOf],
             by simp [generate_alert, AlertOutcome.priorityOf]⟩
    | noDetections a b c =>
      exact ⟨by simp [generate_alert, AlertOutcome.priorityOf],
             by simp [generate_alert, AlertOutcome.priorityOf]⟩
    | complete cam ts vr tps2 fps conf2 =>
      by_cases he : tps2 = []
      · subst he
        exact ⟨by simp [generate_alert, AlertOutcome.priorityOf],
               by simp [generate_alert, AlertOutcome.priorityOf]⟩
      · have hgen : (generate_alert
            (DetectResult.complete cam ts vr tps2 fps conf2)).priorityOf =
            some (str "high") := by
          simp only [generate_alert]
          rw [if_neg he, if_pos (List.length_pos.mpr he)]
          rfl
        rw [hgen]
        exact ⟨by decide, by decide⟩
  refine ⟨?_, ?_, ?_, hno.1, hno.2⟩
  · intro a ha
    obtain ⟨sc, hsc, hae⟩ := List.mem_map.mp ha
    rw [← hae]
    refine ⟨rfl, ?_⟩
    show (if (8:ℚ)/10 < confidence then str "HIGH" else str "MEDIUM") ≠ str "LOW"
    by_cases hc : (8:ℚ)/10 < confidence
    · rw [if_pos hc]
      decide
    · rw [if_neg hc]
      decide
  · intro a ha
    obtain ⟨sc, hsc, hae⟩ := List.mem_map.mp ha
    rw [← hae]
    show (if (8:ℚ)/10 < DetectResult.topConfidenceOf dr then str "HIGH"
      else str "MEDIUM") = str "MEDIUM"
    rw [if_neg ?_]
    show ¬ (8:ℚ)/10 < DetectResult.topConfidenceOf dr
    show ¬ (8:ℚ)/10 < 0
    norm_num
  · intro cam ts vr fps conf2 htps
    simp only [generate_alert]
    rw [if_neg htps, if_pos (List.length_pos.mpr htps)]
    rfl

/-- Witness for C2 (amended): a completed detection with one true
positive gets a "high"-priority alert from `generate_alert`. -/
theorem c2_alert_priority_witness :
    (generate_alert (DetectResult.complete (str "CAMERA_007") (str "t0") []
        [str "fire_detection"] [] (11/20))).priorityOf = some (str "high") :=
  (c2_alert_priority (str "CAMERA_007") (str "t0") [str "fire_detection"] (11/20)
      (DetectResult.dfailure [])).2.2.1
    (str "CAMERA_007") (str "t0") [] [] (11/20) (by decide)

/-- C2 counterexample: running the validation engine on a record with a
detected fire_detection whose narrative is the short string "fire" and
whose stage-2 answer is the verbose "yes it is valid" yields a final
decision with true positive fire_detection and overall confidence
(0.5 + 0.6)/2 = 11/20 = 0.55 ≤ 0.8, yet `generate_alert` assigns the
alert priority "high" where the claim requires MEDIUM. -/
theorem c2_counterexample :
    (detect_true_positives c2_env (some c2_record)).1.truePositivesOf =
      [str "fire_detection"]
    ∧ (detect_true_positives c2_env (some c2_record)).1.confidenceOf = 11/20
    ∧ ((11:ℚ)/20 ≤ 8/10)
    ∧ (generate_alert (detect_true_positives c2_env (some c2_record)).1).priorityOf =
        some (str "high")
    ∧ some (str "high") ≠ some (str "MEDIUM") := by
  have hd : detect_true_positives c2_env (some c2_record) =
      (DetectResult.complete (str "CAMERA_007") (str "2026-01-01T00:00:00")
        [(str "fire_detection", ValidationResult.ok (str "fire_detection") (str "fire")
            (str "yes it is valid") true
            (calculate_confidence (str "fire") (str "yes it is valid")))]
        [str "fire_detection"] []
        (calculate_overall_confidence
          [(str "fire_detection", ValidationResult.ok (str "fire_detection") (str "fire")
              (str "yes it is valid") true
              (calculate_confidence (str "fire") (str "yes it is valid")))]), 1) := rfl
  have hcc : calculate_confidence (str "fire") (str "yes it is valid") = 11/20 := by
    unfold calculate_confidence
    rw [if_neg (by decide), if_neg (by decide)]
    norm_num
  refine ⟨?_, ?_, by norm_num, ?_, by decide⟩
  · rw [hd]
    rfl
  · rw [hd]
    show calculate_overall_confidence
        [(str "fire_detection", ValidationResult.ok (str "fire_detection") (str "fire")
            (str "yes it is valid") true
            (calculate_confidence (str "fire") (str "yes it is valid")))] = 11/20
    have hoc : calculate_overall_confidence
        [(str "fire_detection", ValidationResult.ok (str "fire_detection") (str "fire")
            (str "yes it is valid") true
            (calculate_confidence (str "fire") (str "yes it is valid")))] =
        (calculate_confidence (str "fire") (str "yes it is valid") + 0) / ((1:ℕ):ℚ) := rfl
    rw [hoc, hcc]
    norm_num
  · rw [hd]
    simp only [generate_alert]
    rw [if_neg (by exact List.cons_ne_nil _ _),
        if_pos (by exact List.length_pos.mpr (List.cons_ne_nil _ _))]
    rfl

end SafetyVision
